import Mathlib

/-!
Verification development for the SFTP deploy action.

The JavaScript sources are shallowly embedded: every effect the deploy
functions perform (logging, spawning a subprocess, writing or deleting a
file, registering a secret, exporting an environment variable, setting an
action output) is recorded as an `Event` in a trace, and the behavior of
the external world (exit codes and streams of the spawned processes, the
contents of the source directory) is supplied by an `Env` record.  A
computation is a function from the trace so far to a result
(`Except DeployErr`) together with the extended trace, exactly the shape
of the JavaScript control flow with `try`/`catch`/`finally`.
-/

/-- Exit code and captured streams of one external process invocation,
mirroring the result object of the exec helper used by the action. -/
structure ExecResult where
  exitCode : Nat
  stdout : String
  stderr : String
  deriving Repr, DecidableEq

/-- Contents of a subdirectory, in directory-listing order: a sequence
of regular files and nested subdirectories.  (A first-order sequence
rather than a nested list, so that every function on it is structurally
recursive and evaluates inside the kernel.) -/
inductive FSTree where
  | nil
  | file (name : String) (rest : FSTree)
  | dir (name : String) (children : FSTree) (rest : FSTree)
  deriving Repr, DecidableEq

/-- A node of the local source directory: a regular file or a
subdirectory with its contents. -/
inductive FSEntry where
  | file (name : String)
  | dir (name : String) (children : FSTree)
  deriving Repr, DecidableEq

/-- Name of a directory entry, as the dirent name field. -/
def FSEntry.name : FSEntry → String
  | .file n => n
  | .dir n _ => n

/-- Whether a directory entry is a regular file, as dirent isFile. -/
def FSEntry.isFile : FSEntry → Bool
  | .file _ => true
  | .dir _ _ => false

/-- Errors raised by the embedded code: a subprocess exiting nonzero
(the exec helper rejects in that case), or a generic thrown Error with
its message. -/
inductive DeployErr where
  | execFailure (cmd : String) (exitCode : Nat)
  | genericError (msg : String)
  deriving Repr, DecidableEq

/-- The message carried by an error, as surfaced to logging. -/
def DeployErr.message : DeployErr → String
  | .execFailure cmd code => "The process " ++ cmd ++ " failed with exit code " ++ toString code
  | .genericError m => m

/-- One observable effect of a run.  Log events carry both the rendered
text and the list of dynamic strings spliced into it; spawn events carry
the raw byte buffer written to the standard input of the child when the
code supplies one. -/
inductive Event where
  | log (text : String) (splices : List String)
  | warnLog (text : String) (splices : List String)
  | errorLog (text : String) (splices : List String)
  | setSecret (value : String)
  | setEnvVar (name value : String)
  | spawn (cmd : String) (args : List String) (stdin : Option String)
  | fsWrite (path content : String) (mode : Option Nat)
  | fsUnlink (path : String)
  | fsRead (path : String)
  | setOutput (name value : String)
  | setFailed (msg : String)
  | startGroup (name : String)
  | endGroup
  deriving Repr, DecidableEq

/-- The behavior of everything outside the deploy code: the resolved
configuration record, the platform, the result of each subprocess the
code can spawn, the temp directories, the source tree (`none` when the
source directory does not exist), whether the unlink calls succeed, and
the clock. -/
structure Env where
  host : String
  username : String
  port : String
  sourceDir : String
  remoteDir : String
  privateKey : String
  platform : String
  whichSshAdd : ExecResult
  whichSshAddVerify : ExecResult
  aptGetUpdate : ExecResult
  aptGetInstall : ExecResult
  sshAgentStart : ExecResult
  sshAdd : ExecResult
  sftp : ExecResult
  sshAgentKill : ExecResult
  tmpdir : String
  runnerTemp : String
  nowISO : String
  sourceTree : Option (List FSEntry)
  unlinkIdentityOk : Bool
  unlinkBatchOk : Bool

/-- A deploy computation: consumes the trace so far, returns a result or
an error, together with the extended trace. -/
def DM (α : Type) : Type := List Event → Except DeployErr α × List Event

/-- Sequencing: run the first computation; on success feed its value to
the continuation, on error short-circuit (the JavaScript await/throw
discipline). -/
def DM.bind {α β : Type} (x : DM α) (f : α → DM β) : DM β := fun t =>
  match x t with
  | (.ok a, t1) => f a t1
  | (.error e, t1) => (.error e, t1)

/-- Returning a value without effects. -/
def DM.pure {α : Type} (a : α) : DM α := fun t => (.ok a, t)

instance : Monad DM where
  pure := DM.pure
  bind := DM.bind

@[simp] theorem DM.bind_eq {α β : Type} (x : DM α) (f : α → DM β) :
    (x >>= f) = DM.bind x f := rfl

@[simp] theorem DM.pure_eq {α : Type} (a : α) :
    (Pure.pure a : DM α) = DM.pure a := rfl

/-- Record one event. -/
def emit (e : Event) : DM Unit := fun t => (.ok (), t ++ [e])

/-- Throw an error (a JavaScript `throw`). -/
def throwE {α : Type} (e : DeployErr) : DM α := fun t => (.error e, t)

/-- `try { x } catch (e) { h e }`. -/
def tryCatchE {α : Type} (x : DM α) (h : DeployErr → DM α) : DM α := fun t =>
  match x t with
  | (.ok a, t1) => (.ok a, t1)
  | (.error e, t1) => h e t1

/-- `try { x } finally { fin }`: the finalizer runs on both paths; an
error from the finalizer replaces the outcome, as in JavaScript. -/
def ensureAfter {α : Type} (x : DM α) (fin : DM Unit) : DM α := fun t =>
  match x t with
  | (.ok a, t1) =>
    (match fin t1 with
     | (.ok _, t2) => (.ok a, t2)
     | (.error e2, t2) => (.error e2, t2))
  | (.error e, t1) =>
    (match fin t1 with
     | (.ok _, t2) => (.error e, t2)
     | (.error e2, t2) => (.error e2, t2))

/-- Model of the exec helper getExecOutput: spawn the process (recording
the standard input buffer when one is supplied), then reject when the
exit code is nonzero unless ignoreReturnCode was passed. -/
def getExecOutput (cmd : String) (args : List String) (stdin : Option String)
    (ignore : Bool) (res : ExecResult) : DM ExecResult := do
  emit (.spawn cmd args stdin)
  if res.exitCode != 0 && !ignore then throwE (.execFailure cmd res.exitCode)
  else pure res

/-- Model of the exec helper exec: spawn, then reject on nonzero exit. -/
def execCmd (cmd : String) (args : List String) (res : ExecResult) : DM Nat := do
  emit (.spawn cmd args none)
  if res.exitCode != 0 then throwE (.execFailure cmd res.exitCode)
  else pure res.exitCode

/-- Scan for the first position where `pat` is a prefix and capture the
following characters up to (not including) the next semicolon: the model
of matching the regular expression KEY=([^;]*) against a string. -/
def captureAfter (pat : List Char) : List Char → Option (List Char)
  | [] => none
  | c :: cs =>
    if pat.isPrefixOf (c :: cs) then
      some (((c :: cs).drop pat.length).takeWhile (fun ch => ch != ';'))
    else captureAfter pat cs

/-- stdout.match(/KEY=([^;]*)/) returning the captured group, `none`
when the pattern does not occur. -/
def matchEnvAssign (key s : String) : Option String :=
  (captureAfter (key.data ++ ['=']) s.data).map (fun cs => String.mk cs)

/-- Whether a string ends in a newline, as the endsWith check of the
normalization step (the suffix is the single character LF). -/
def endsWithNewline (s : String) : Bool := s.data.getLast? == some '\n'

/-- Private-key normalization, from deploy lines 122-126: append one
newline when the key does not already end in one. -/
def normalizeKey (k : String) : String :=
  if endsWithNewline k then k else k ++ "\n"

/-- Relative paths of all entries below one subdirectory, each paired
with its isFile status. -/
def FSTree.paths : FSTree → List (String × Bool)
  | .nil => []
  | .file n rest => (n, true) :: FSTree.paths rest
  | .dir n children rest =>
    (n, false) ::
      ((FSTree.paths children).map (fun p => (n ++ "/" ++ p.1, p.2)) ++ FSTree.paths rest)

/-- The recursive directory listing readdirSync(dir, recursive true):
every entry of the tree as a relative path paired with its isFile
status.  The listing order differs from the platform order but nothing
below depends on it beyond membership and count. -/
def listRecursive : List FSEntry → List (String × Bool)
  | [] => []
  | .file n :: rest => (n, true) :: listRecursive rest
  | .dir n children :: rest =>
    (n, false) ::
      ((FSTree.paths children).map (fun p => (n ++ "/" ++ p.1, p.2)) ++ listRecursive rest)

/-- The number getFileCount computes: regular files anywhere in the
tree, subdirectories included (the recursive listing filtered by the
per-entry stat). -/
def fileCountOf (entries : List FSEntry) : Nat :=
  ((listRecursive entries).filter (fun p => p.2)).length

/-- path.join of the embedding: plain slash concatenation (the sources
never join paths that need normalization). -/
def pathJoin (a b : String) : String := a ++ "/" ++ b

/-- The put directives of the batch file, from deploy lines 157-163: one
line per regular file directly under the source directory, in listing
order, with both paths quoted; directories contribute nothing. -/
def putLines (sourceDir : String) : List FSEntry → String
  | [] => ""
  | e :: rest =>
    (if e.isFile then
      "put \"" ++ pathJoin sourceDir e.name ++ "\" \"" ++ e.name ++ "\"\n"
     else "") ++ putLines sourceDir rest

/-- The whole batch file of deploy lines 150-163: a tolerated mkdir (the
leading dash makes its failure non-fatal to the batch), a cd, then the
put directives. -/
def batchFileContent (remoteDir sourceDir : String) (entries : List FSEntry) : String :=
  "-mkdir " ++ remoteDir ++ "\n" ++ ("cd " ++ remoteDir ++ "\n") ++ putLines sourceDir entries

/-- The transfer manifest: (local path, remote name) per regular file
directly under the source directory, in listing order. -/
def manifestOf (sourceDir : String) : List FSEntry → List (String × String)
  | [] => []
  | e :: rest =>
    (if e.isFile then [(pathJoin sourceDir e.name, e.name)] else []) ++ manifestOf sourceDir rest

/-- Temp path of the identity file, deploy line 173. -/
def identityFilePath (env : Env) : String := pathJoin env.tmpdir "deploy_identity"

/-- Temp path of the batch file, deploy line 146. -/
def batchFilePath (env : Env) : String := pathJoin env.tmpdir "sftp_batch"

/-- The sftp invocation of deploy line 178: verbose, host key checking
disabled, explicit identity file, batch file, port, user at host. -/
def sftpCommand (env : Env) : String :=
  "sftp -v -o StrictHostKeyChecking=no -o UserKnownHostsFile=/dev/null -i "
    ++ identityFilePath env ++ " -b " ++ batchFilePath env ++ " -P " ++ env.port
    ++ " " ++ env.username ++ "@" ++ env.host

/-- The batch content a run of deploy writes, at the env level (empty
listing when the source directory is missing; the write is only reached
when it exists). -/
def batchContentOf (env : Env) : String :=
  batchFileContent env.remoteDir env.sourceDir (env.sourceTree.getD [])

/-- Attempt to delete a file: the env flag says whether the unlink call
succeeds; on failure it throws the filesystem error. -/
def unlinkFile (path : String) (ok : Bool) : DM Unit :=
  if ok then emit (.fsUnlink path)
  else throwE (.genericError ("ENOENT: no such file or directory, unlink " ++ path))

/-- getFileCount, part 001 lines 95-105: recursive directory listing,
one stat per entry, counting regular files; a missing directory makes
the listing call itself throw. -/
def getFileCount (env : Env) : DM Nat := do
  emit (.fsRead env.sourceDir)
  match env.sourceTree with
  | none => throwE (.genericError ("ENOENT: no such file or directory, scandir " ++ env.sourceDir))
  | some es => pure (fileCountOf es)

/-- The flat readdirSync(sourceDir, withFileTypes) of deploy line 157. -/
def readdirTop (env : Env) : DM (List FSEntry) := do
  emit (.fsRead env.sourceDir)
  match env.sourceTree with
  | none => throwE (.genericError ("ENOENT: no such file or directory, scandir " ++ env.sourceDir))
  | some es => pure es

/-- checkAndInstallSshTools, part 001 lines 7-42: probe for ssh-add,
install the OpenSSH client on linux when it is missing, verify, and
rethrow any failure after logging it; the group is closed on every
path. -/
def checkAndInstallSshTools (env : Env) : DM Unit := do
  emit (.startGroup "🔧 Checking SSH tools")
  ensureAfter
    (tryCatchE
      (do
        emit (.log "Checking if ssh-add is available..." [])
        let sshAddResult ← getExecOutput "which" ["ssh-add"] none true env.whichSshAdd
        if sshAddResult.exitCode != 0 then do
          emit (.log "ssh-add not found, installing OpenSSH client..." [])
          if env.platform == "linux" then do
            let _ ← execCmd "sudo" ["apt-get", "update"] env.aptGetUpdate
            let _ ← execCmd "sudo" ["apt-get", "install", "-y", "openssh-client"] env.aptGetInstall
            pure ()
          else if env.platform == "darwin" then
            emit (.log "On macOS, OpenSSH should be pre-installed" [])
          else if env.platform == "win32" then
            emit (.warnLog "On Windows, please ensure OpenSSH is installed via Windows features" [])
          else pure ()
          let verifyResult ← getExecOutput "which" ["ssh-add"] none true env.whichSshAddVerify
          if verifyResult.exitCode != 0 then
            throwE (.genericError "Failed to install or locate ssh-add after installation attempt")
          else pure ()
        else pure ()
        emit (.log "SSH tools are available" []))
      (fun e => do
        emit (.errorLog "Failed to setup SSH tools" [])
        emit (.errorLog (DeployErr.message e) [DeployErr.message e])
        throwE e))
    (emit Event.endGroup)

/-- startSshAgent, part 001 lines 44-93: start the agent, parse the
socket and pid tokens from its stdout, export them, pipe the key into
ssh-add; any failure is logged and rethrown, and the group is closed on
every path.  The returned cleanup closure is never used by deploy, so
the embedding returns unit. -/
def startSshAgent (env : Env) (privateKey : String) : DM Unit := do
  emit (.startGroup "🔐 Setting up SSH Agent")
  ensureAfter
    (tryCatchE
      (do
        if privateKey == "" then throwE (.genericError "Private key is required")
        else pure ()
        emit (.log "Starting ssh-agent process..." [])
        let agentInfo ← getExecOutput "ssh-agent" ["-s"] none false env.sshAgentStart
        emit (.log "ssh-agent output:" [])
        if agentInfo.stdout == "" then throwE (.genericError "Failed to get ssh-agent output")
        else pure ()
        match matchEnvAssign "SSH_AUTH_SOCK" agentInfo.stdout,
              matchEnvAssign "SSH_AGENT_PID" agentInfo.stdout with
        | some authSock, some agentPid => do
          emit (.setEnvVar "SSH_AUTH_SOCK" authSock)
          emit (.setEnvVar "SSH_AGENT_PID" agentPid)
          emit (.log ("SSH Agent started with PID: " ++ agentPid) [agentPid])
          emit (.log "Adding SSH key to agent..." [])
          let _ ← getExecOutput "ssh-add" ["-"] (some privateKey) false env.sshAdd
          emit (.log "SSH key added successfully" [])
        | _, _ => throwE (.genericError "Failed to parse ssh-agent output"))
      (fun e => do
        emit (.errorLog "Failed to setup SSH agent" [])
        emit (.errorLog (DeployErr.message e) [DeployErr.message e])
        throwE e))
    (emit Event.endGroup)

/-- The configuration summary template of deploy lines 131-137. -/
def configSummary (env : Env) (keyLen : Nat) : String :=
  "Configuration validated:\n            - Host: " ++ env.host
    ++ "\n            - Username: " ++ env.username
    ++ "\n            - Port: " ++ env.port
    ++ "\n            - Source Directory: " ++ env.sourceDir
    ++ "\n            - Remote Directory: " ++ env.remoteDir
    ++ "\n            - Private Key Length: " ++ toString keyLen ++ " characters"

/-- The identity-file cleanup block duplicated at deploy lines 190-196
and 199-205: attempt the unlink, log success, downgrade a failure to a
warning. -/
def cleanupIdentity (env : Env) : DM Unit :=
  tryCatchE
    (do
      unlinkFile (identityFilePath env) env.unlinkIdentityOk
      emit (.log "Temporary identity file deleted" []))
    (fun e2 => emit (.warnLog "Error deleting temporary identity file:" [DeployErr.message e2]))

/-- The transfer block of deploy, part 001 lines 181-207: run the sftp
client; on success log its streams and delete the identity file; on
failure log, delete the identity file, and rethrow the transfer
error. -/
def sftpTransfer (env : Env) : DM Unit :=
  tryCatchE
    (do
      let result ← getExecOutput (sftpCommand env) [] none false env.sftp
      emit (.log "SFTP command output:" [result.stdout])
      if result.stderr != "" then emit (.warnLog "SFTP command stderr:" [result.stderr])
      else pure ()
      emit (.log ("SFTP transfer completed with exit code: " ++ toString result.exitCode)
        [toString result.exitCode])
      cleanupIdentity env)
    (fun sftpError => do
      emit (.errorLog "SFTP command failed:" [DeployErr.message sftpError])
      cleanupIdentity env
      throwE sftpError)

/-- The pipeline of deploy from the secret marker on, part 001 lines
128-226, as a function of the already-normalized key: mask the key, log
the configuration, start and load the agent, build and write the batch
file, write the 0600 identity file, transfer, then (success path only)
delete the batch file and kill the agent. -/
def deployCore (env : Env) (privateKey : String) : DM Bool := do
  emit (.setSecret privateKey)
  emit (.log (configSummary env privateKey.length)
    [env.host, env.username, env.port, env.sourceDir, env.remoteDir,
     toString privateKey.length])
  emit (.log "Starting SSH agent..." [])
  startSshAgent env privateKey
  emit (.log "SSH agent started successfully:" [])
  emit (.log "Creating SFTP batch file..." [])
  let fileCount ← getFileCount env
  emit (.log ("Found " ++ toString fileCount ++ " files to transfer in source directory")
    [toString fileCount])
  let entries ← readdirTop env
  let content := batchFileContent env.remoteDir env.sourceDir entries
  emit (.fsWrite (batchFilePath env) content none)
  emit (.log "SFTP batch file created successfully at:" [batchFilePath env])
  emit (.log "Batch file contents:" [content])
  emit (.log "Preparing SFTP command..." [])
  emit (.fsWrite (identityFilePath env) privateKey (some 384))
  emit (.log ("Identity file created at: " ++ identityFilePath env) [identityFilePath env])
  emit (.log ("Executing SFTP command: " ++ sftpCommand env) [sftpCommand env])
  emit (.log "Starting file transfer..." [])
  sftpTransfer env
  emit (.log "Starting cleanup process..." [])
  tryCatchE
    (do
      unlinkFile (batchFilePath env) env.unlinkBatchOk
      emit (.log "Batch file deleted successfully" []))
    (fun e => emit (.warnLog "Error deleting batch file:" [DeployErr.message e]))
  tryCatchE
    (do
      let _ ← execCmd "ssh-agent" ["-k"] env.sshAgentKill
      emit (.log "SSH agent killed successfully" []))
    (fun e => emit (.warnLog "Error killing SSH agent:" [DeployErr.message e]))
  emit (.log "Deployment completed successfully!" [])
  pure true

/-- deploy, part 001 lines 107-234: the main orchestrator.  Inputs are
read from the resolved configuration, the key is normalized, and the
rest of the pipeline is deployCore; any error is logged with its stack
trace and rethrown to the caller. -/
def deploy (env : Env) : DM Bool := do
  emit (.log "Starting deployment process..." [])
  tryCatchE
    (do
      checkAndInstallSshTools env
      emit (.log "Validating input parameters..." [])
      let privateKey ←
        if endsWithNewline env.privateKey then pure env.privateKey
        else do
          emit (.log "Added missing newline to private key" [])
          pure (env.privateKey ++ "\n")
      deployCore env privateKey)
    (fun e => do
      emit (.errorLog "Deployment failed with error:" [DeployErr.message e])
      emit (.errorLog "Error stack trace:" [DeployErr.message e])
      throwE e)

/-- The inner checkAndInstallSshToolsWithDeps of deployWithDependencies,
part 001 lines 269-304: a verbatim copy of checkAndInstallSshTools over
the injected modules. -/
def checkToolsWithDeps (env : Env) : DM Unit := do
  emit (.startGroup "🔧 Checking SSH tools")
  ensureAfter
    (tryCatchE
      (do
        emit (.log "Checking if ssh-add is available..." [])
        let sshAddResult ← getExecOutput "which" ["ssh-add"] none true env.whichSshAdd
        if sshAddResult.exitCode != 0 then do
          emit (.log "ssh-add not found, installing OpenSSH client..." [])
          if env.platform == "linux" then do
            let _ ← execCmd "sudo" ["apt-get", "update"] env.aptGetUpdate
            let _ ← execCmd "sudo" ["apt-get", "install", "-y", "openssh-client"] env.aptGetInstall
            pure ()
          else if env.platform == "darwin" then
            emit (.log "On macOS, OpenSSH should be pre-installed" [])
          else if env.platform == "win32" then
            emit (.warnLog "On Windows, please ensure OpenSSH is installed via Windows features" [])
          else pure ()
          let verifyResult ← getExecOutput "which" ["ssh-add"] none true env.whichSshAddVerify
          if verifyResult.exitCode != 0 then
            throwE (.genericError "Failed to install or locate ssh-add after installation attempt")
          else pure ()
        else pure ()
        emit (.log "SSH tools are available" []))
      (fun e => do
        emit (.errorLog "Failed to setup SSH tools" [])
        emit (.errorLog (DeployErr.message e) [DeployErr.message e])
        throwE e))
    (emit Event.endGroup)

/-- The inner startSshAgentWithDeps of deployWithDependencies, part 001
lines 326-375: a verbatim copy of startSshAgent over the injected
modules. -/
def startSshAgentWithDeps (env : Env) (pk : String) : DM Unit := do
  emit (.startGroup "🔐 Setting up SSH Agent")
  ensureAfter
    (tryCatchE
      (do
        if pk == "" then throwE (.genericError "Private key is required")
        else pure ()
        emit (.log "Starting ssh-agent process..." [])
        let agentInfo ← getExecOutput "ssh-agent" ["-s"] none false env.sshAgentStart
        emit (.log "ssh-agent output:" [])
        if agentInfo.stdout == "" then throwE (.genericError "Failed to get ssh-agent output")
        else pure ()
        match matchEnvAssign "SSH_AUTH_SOCK" agentInfo.stdout,
              matchEnvAssign "SSH_AGENT_PID" agentInfo.stdout with
        | some authSock, some agentPid => do
          emit (.setEnvVar "SSH_AUTH_SOCK" authSock)
          emit (.setEnvVar "SSH_AGENT_PID" agentPid)
          emit (.log ("SSH Agent started with PID: " ++ agentPid) [agentPid])
          emit (.log "Adding SSH key to agent..." [])
          let _ ← getExecOutput "ssh-add" ["-"] (some pk) false env.sshAdd
          emit (.log "SSH key added successfully" [])
        | _, _ => throwE (.genericError "Failed to parse ssh-agent output"))
      (fun e => do
        emit (.errorLog "Failed to setup SSH agent" [])
        emit (.errorLog (DeployErr.message e) [DeployErr.message e])
        throwE e))
    (emit Event.endGroup)

/-- deployWithDependencies, part 001 lines 247-484: the same pipeline as
deploy with injected modules, except that the private key is never
normalized: the raw key goes to the secret marker, to ssh-add, and to
the identity file. -/
def deployWithDependencies (env : Env) : DM Bool := do
  emit (.log "Starting deployment process with injected dependencies..." [])
  tryCatchE
    (do
      checkToolsWithDeps env
      emit (.log "Validating input parameters..." [])
      emit (.setSecret env.privateKey)
      emit (.log (configSummary env env.privateKey.length)
        [env.host, env.username, env.port, env.sourceDir, env.remoteDir,
         toString env.privateKey.length])
      emit (.log "Starting SSH agent..." [])
      startSshAgentWithDeps env env.privateKey
      emit (.log "SSH agent started successfully:" [])
      emit (.log "Creating SFTP batch file..." [])
      let fileCount ← getFileCount env
      emit (.log ("Found " ++ toString fileCount ++ " files to transfer in source directory")
        [toString fileCount])
      let entries ← readdirTop env
      let content := batchFileContent env.remoteDir env.sourceDir entries
      emit (.fsWrite (batchFilePath env) content none)
      emit (.log "SFTP batch file created successfully at:" [batchFilePath env])
      emit (.log "Batch file contents:" [content])
      emit (.log "Preparing SFTP command..." [])
      emit (.fsWrite (identityFilePath env) env.privateKey (some 384))
      emit (.log ("Identity file created at: " ++ identityFilePath env) [identityFilePath env])
      emit (.log ("Executing SFTP command: " ++ sftpCommand env) [sftpCommand env])
      emit (.log "Starting file transfer..." [])
      tryCatchE
        (do
          let result ← getExecOutput (sftpCommand env) [] none false env.sftp
          emit (.log "SFTP command output:" [result.stdout])
          if result.stderr != "" then emit (.warnLog "SFTP command stderr:" [result.stderr])
          else pure ()
          emit (.log ("SFTP transfer completed with exit code: " ++ toString result.exitCode)
            [toString result.exitCode])
          cleanupIdentity env)
        (fun sftpError => do
          emit (.errorLog "SFTP command failed:" [DeployErr.message sftpError])
          cleanupIdentity env
          throwE sftpError)
      emit (.log "Starting cleanup process..." [])
      tryCatchE
        (do
          unlinkFile (batchFilePath env) env.unlinkBatchOk
          emit (.log "Batch file deleted successfully" []))
        (fun e => emit (.warnLog "Error deleting batch file:" [DeployErr.message e]))
      tryCatchE
        (do
          let _ ← execCmd "ssh-agent" ["-k"] env.sshAgentKill
          emit (.log "SSH agent killed successfully" []))
        (fun e => emit (.warnLog "Error killing SSH agent:" [DeployErr.message e]))
      emit (.log "Deployment completed successfully!" [])
      pure true)
    (fun e => do
      emit (.errorLog "Deployment failed with error:" [DeployErr.message e])
      emit (.errorLog "Error stack trace:" [DeployErr.message e])
      throwE e)

/-- Whether pat occurs as a contiguous run inside the character list
(String.prototype.includes). -/
def listHasInfix (pat : List Char) : List Char → Bool
  | [] => pat.isEmpty
  | c :: cs => pat.isPrefixOf (c :: cs) || listHasInfix pat cs

/-- s.includes(pat). -/
def hasSubstr (pat s : String) : Bool := listHasInfix pat.data s.data

/-- String.prototype.trim: strip leading and trailing whitespace. -/
def trimStr (s : String) : String :=
  String.mk (((s.data.dropWhile Char.isWhitespace).reverse.dropWhile Char.isWhitespace).reverse)

/-- startSshAgent of the older orchestrator, src deploy.js lines
333-365: no key check and no stdout checks; a stdout that the two token
patterns do not match crashes with a null-property TypeError inside the
try, which the catch logs and rethrows.  The cleanup closure it returns
is modelled at its single call site in the final cleanup block. -/
def startSshAgentV2 (env : Env) (privateKey : String) : DM Unit := do
  emit (.startGroup "🔐 Setting up SSH Agent")
  ensureAfter
    (tryCatchE
      (do
        emit (.log "Starting ssh-agent process..." [])
        let agentInfo ← getExecOutput "ssh-agent" ["-s"] none false env.sshAgentStart
        match matchEnvAssign "SSH_AUTH_SOCK" agentInfo.stdout,
              matchEnvAssign "SSH_AGENT_PID" agentInfo.stdout with
        | some authSock, some agentPid => do
          emit (.setEnvVar "SSH_AUTH_SOCK" authSock)
          emit (.setEnvVar "SSH_AGENT_PID" agentPid)
          emit (.log ("SSH Agent started with PID: " ++ agentPid) [agentPid])
          emit (.log "Adding SSH key to agent..." [])
          let _ ← getExecOutput "ssh-add" ["-"] (some privateKey) false env.sshAdd
          emit (.log "SSH key added successfully" [])
        | _, _ =>
          throwE (.genericError "Cannot read properties of null (reading 1)"))
      (fun e => do
        emit (.errorLog "Failed to setup SSH agent" [])
        throwE e))
    (emit Event.endGroup)

/-- Batch file path of the older orchestrator, deploy.js line 417. -/
def batchFilePathV2 (env : Env) : String := pathJoin env.runnerTemp "sftp_batch"

/-- Batch commands of the older orchestrator, deploy.js lines 418-422:
mkdir -p, cd, one recursive put of the whole source directory. -/
def batchCommandsV2 (env : Env) : String :=
  "mkdir -p " ++ env.remoteDir ++ "\n" ++ ("cd " ++ env.remoteDir ++ "\n")
    ++ ("put -r " ++ env.sourceDir ++ "/* .")

/-- sftp argument vector of the older orchestrator, deploy.js lines
432-437: agent-based authentication, no identity file. -/
def sftpArgsV2 (env : Env) : List String :=
  ["-P", env.port, "-o", "StrictHostKeyChecking=no", "-b", batchFilePathV2 env,
   env.username ++ "@" ++ env.host]

/-- The stderr listener of deploy.js lines 446-455: classify each
line by best-effort markers. -/
def v2LogStderr (env : Env) : DM Unit :=
  if env.sftp.stderr == "" then pure ()
  else
    let s := trimStr env.sftp.stderr
    if hasSubstr "Error" s || hasSubstr "fatal" s then emit (.errorLog s [s])
    else if hasSubstr "Warning" s then emit (.warnLog s [s])
    else emit (.log s [s])

/-- The stdout listener of deploy.js lines 442-445. -/
def v2LogStdout (env : Env) : DM Unit :=
  if env.sftp.stdout == "" then pure ()
  else
    let s := trimStr env.sftp.stdout
    if s == "" then pure () else emit (.log s [s])

/-- The validation prefix of the older orchestrator, deploy.js lines
383-410: inputs, secret marker, info lines, the single up-front
existence check of the source directory, then the recursive file
count.  Everything before the check is pure logging: no subprocess, no
filesystem read or write. -/
def v2Prelude (env : Env) : DM Nat := do
  emit (.log "🚀 Starting SFTP deployment..." [])
  emit (.startGroup "📥 Validating inputs")
  emit (.setSecret env.privateKey)
  emit (.log ("Host: " ++ env.host) [env.host])
  emit (.log ("Username: " ++ env.username) [env.username])
  emit (.log ("Port: " ++ env.port) [env.port])
  emit (.log ("Source directory: " ++ env.sourceDir) [env.sourceDir])
  emit (.log ("Remote directory: " ++ env.remoteDir) [env.remoteDir])
  if env.sourceTree.isSome then pure ()
  else throwE (.genericError ("Source directory " ++ env.sourceDir ++ " does not exist"))
  let fileCount ← getFileCount env
  emit (.log ("Found " ++ toString fileCount ++ " files to upload") [toString fileCount])
  emit Event.endGroup
  pure fileCount

/-- The batch-build and transfer section of the older orchestrator,
deploy.js lines 415-479: write the batch file, run sftp with the
listeners attached, delete the batch file in a finally, then set the
two action outputs. -/
def v2Transfer (env : Env) (fileCount : Nat) : DM Unit := do
  emit (.startGroup "📝 Preparing SFTP batch file")
  emit (.fsWrite (batchFilePathV2 env) (batchCommandsV2 env) none)
  emit (.log "SFTP batch file created" [])
  emit (.log ("Batch file contents:\n" ++ batchCommandsV2 env) [batchCommandsV2 env])
  emit Event.endGroup
  ensureAfter
    (do
      emit (.startGroup "📤 Executing SFTP transfer")
      emit (.log "Starting file transfer..." [])
      emit (.spawn "sftp" (sftpArgsV2 env) none)
      v2LogStdout env
      v2LogStderr env
      if env.sftp.exitCode != 0 then throwE (.execFailure "sftp" env.sftp.exitCode)
      else pure ()
      emit (.log "✅ SFTP transfer completed successfully" [])
      emit Event.endGroup)
    (do
      emit (.startGroup "🧹 Cleanup")
      tryCatchE
        (do
          unlinkFile (batchFilePathV2 env) env.unlinkBatchOk
          emit (.log "Batch file deleted" []))
        (fun e => emit (.warnLog ("Failed to delete batch file: " ++ DeployErr.message e)
          [DeployErr.message e]))
      emit Event.endGroup)
  emit (.setOutput "deployed-files" (toString fileCount))
  emit (.setOutput "deployment-time" env.nowISO)

/-- The catch block of the older orchestrator, deploy.js lines 481-483:
log and mark the action failed; the error is not rethrown. -/
def v2Catch (e : DeployErr) : DM Unit := do
  emit (.errorLog "❌ Deployment failed" [])
  emit (.setFailed (DeployErr.message e))

/-- The final cleanup of the older orchestrator, deploy.js lines
484-496: run the cleanup closure returned by startSshAgent (terminate
the agent), downgrading its failure to a warning. -/
def v2KillAgent (env : Env) : DM Unit := do
  emit (.startGroup "🧹 Cleaning up SSH agent")
  tryCatchE
    (do
      emit (.log "Terminating SSH agent..." [])
      let _ ← execCmd "ssh-agent" ["-k"] env.sshAgentKill
      emit (.log "SSH agent terminated" []))
    (fun e => emit (.warnLog ("Failed to cleanup ssh-agent: " ++ DeployErr.message e)
      [DeployErr.message e]))
  emit Event.endGroup

/-- The try/catch of the older orchestrator with the acquired-cleanup
flag made explicit: the catch fires once for any failure; the returned
flag says whether startSshAgent had completed (the cleanup variable was
assigned) when the body finished. -/
def v2Attempt (env : Env) : DM Bool :=
  tryCatchE
    (do
      let fileCount ← v2Prelude env
      startSshAgentV2 env env.privateKey
      tryCatchE
        (do
          v2Transfer env fileCount
          pure true)
        (fun e => do
          v2Catch e
          pure true))
    (fun e => do
      v2Catch e
      pure false)

/-- deploy of src deploy.js lines 379-497 (the orchestrator with the
up-front source check, the finally-based cleanup and the action
outputs): validation and count, agent, transfer, outputs; any failure
is routed to setFailed, and the agent is terminated in a finally
whenever it was acquired. -/
def deployV2 (env : Env) : DM Unit := do
  let acquired ← v2Attempt env
  if acquired then v2KillAgent env else pure ()

/-- Two strings are equal when their character data are. -/
theorem String.eq_of_data_eq {s t : String} (h : s.data = t.data) : s = t := by
  cases s; cases t; exact congrArg String.mk h

/-- Appending distributes over the character data. -/
theorem String.data_append_eq (a b : String) : (a ++ b).data = a.data ++ b.data := rfl

/-- The identity file and the batch file live at distinct paths under
the same temp directory. -/
theorem identity_ne_batch (env : Env) : identityFilePath env ≠ batchFilePath env := by
  intro h
  have h2 : (identityFilePath env).data = (batchFilePath env).data := congrArg String.data h
  simp only [identityFilePath, batchFilePath, pathJoin, String.data_append_eq] at h2
  have h4 := List.append_cancel_left h2
  simp at h4

/-- A string extended by a newline ends with a newline. -/
theorem endsWithNewline_append_newline (k : String) :
    endsWithNewline (k ++ "\n") = true := by
  have h : (k ++ "\n").data = k.data ++ ['\n'] := rfl
  simp [endsWithNewline, h]

/-- The normalized key always ends with a newline. -/
theorem endsWithNewline_normalizeKey (k : String) :
    endsWithNewline (normalizeKey k) = true := by
  unfold normalizeKey
  by_cases h : endsWithNewline k
  · simp [h]
  · simp [h, endsWithNewline_append_newline]

/-- The normalized key is never the empty string. -/
theorem normalizeKey_ne_empty (k : String) : normalizeKey k ≠ "" := by
  intro h
  have h2 := endsWithNewline_normalizeKey k
  rw [h] at h2
  simp [endsWithNewline] at h2

/-- Claim C5: for every rawKey not ending in a line terminator,
normalization yields rawKey followed by one newline; for every rawKey
already ending in one, normalization is the identity; hence
normalization is idempotent and never duplicates an existing trailing
terminator.  normalizeKey is the normalization step of deploy lines
122-126, the line terminator being the newline its endsWith check
tests. -/
theorem claim_C5_key_normalization (k : String) :
    (endsWithNewline k = false → normalizeKey k = k ++ "\n") ∧
    (endsWithNewline k = true → normalizeKey k = k) ∧
    normalizeKey (normalizeKey k) = normalizeKey k := by
  refine ⟨fun h => by simp [normalizeKey, h], fun h => by simp [normalizeKey, h], ?_⟩
  have h2 := endsWithNewline_normalizeKey k
  conv_lhs => rw [normalizeKey]
  simp [h2]

/-- Witness for claim C5 at concrete keys with and without the trailing
newline. -/
theorem claim_C5_key_normalization_witness :
    normalizeKey "KEY" = "KEY" ++ "\n" ∧ normalizeKey "KEY\n" = "KEY\n" :=
  ⟨(claim_C5_key_normalization "KEY").1 (by decide),
   (claim_C5_key_normalization "KEY\n").2.1 (by decide)⟩

/-- The batch body the specification describes: one transfer line per
manifest entry, in manifest order, both paths quoted. -/
def putLinesOfManifest : List (String × String) → String
  | [] => ""
  | p :: rest => "put \"" ++ p.1 ++ "\" \"" ++ p.2 ++ "\"\n" ++ putLinesOfManifest rest

/-- The put lines computed from the directory listing are exactly the
put lines of the manifest derived from it. -/
theorem putLines_eq_manifest (sourceDir : String) (entries : List FSEntry) :
    putLines sourceDir entries = putLinesOfManifest (manifestOf sourceDir entries) := by
  induction entries with
  | nil => rfl
  | cons e rest ih =>
    cases e with
    | file n => simp [putLines, manifestOf, putLinesOfManifest, FSEntry.isFile, FSEntry.name, ih]
    | dir n c => simp [putLines, manifestOf, putLinesOfManifest, FSEntry.isFile, FSEntry.name, ih]

/-- Claim C3: the generated batch script is exactly a tolerated
directory-create directive for remoteDir (leading dash: its own failure
does not abort the batch), a directory-select directive for remoteDir,
then one quoted transfer directive per manifest entry in manifest
order; and on the concrete example of the specification the script is
the exact four-line text.  batchFileContent is a pure function of its
inputs, so repeated runs with identical inputs are byte-identical. -/
theorem claim_C3_batch_script (remoteDir sourceDir : String) (entries : List FSEntry) :
    batchFileContent remoteDir sourceDir entries =
      "-mkdir " ++ remoteDir ++ "\n" ++ ("cd " ++ remoteDir ++ "\n")
        ++ putLinesOfManifest (manifestOf sourceDir entries) ∧
    batchFileContent "/var/www/html" "./dist" [.file "a.txt", .file "b.txt"] =
      "-mkdir /var/www/html\ncd /var/www/html\nput \"./dist/a.txt\" \"a.txt\"\nput \"./dist/b.txt\" \"b.txt\"\n" := by
  constructor
  · simp [batchFileContent, putLines_eq_manifest]
  · rfl


/-- Claim C4, amended: the manifest contains exactly the regular files
directly under the source directory, in listing order, with
subdirectories skipped and not recursed into; and when the directory
contents consist solely of regular files the reported file count equals
the manifest length.  (In general the reported count is the recursive
file count, which exceeds the manifest length when a subdirectory
contains files: see the counterexample.) -/
theorem claim_C4_flat_manifest (sourceDir : String) (entries : List FSEntry) :
    (manifestOf sourceDir entries).map Prod.snd
      = (entries.filter (fun e => e.isFile)).map FSEntry.name ∧
    (manifestOf sourceDir entries).map Prod.fst
      = (entries.filter (fun e => e.isFile)).map (fun e => pathJoin sourceDir e.name) ∧
    ((∀ e ∈ entries, e.isFile = true) →
      fileCountOf entries = (manifestOf sourceDir entries).length) := by
  refine ⟨?_, ?_, ?_⟩
  · induction entries with
    | nil => rfl
    | cons e rest ih =>
      cases e with
      | file n => simp [manifestOf, FSEntry.isFile, FSEntry.name, ih]
      | dir n c => simp [manifestOf, FSEntry.isFile, FSEntry.name, ih]
  · induction entries with
    | nil => rfl
    | cons e rest ih =>
      cases e with
      | file n => simp [manifestOf, FSEntry.isFile, FSEntry.name, ih]
      | dir n c => simp [manifestOf, FSEntry.isFile, FSEntry.name, ih]
  · intro hall
    induction entries with
    | nil => rfl
    | cons e rest ih =>
      cases e with
      | file n =>
        have ihr := ih (fun e he => hall e (List.mem_cons_of_mem _ he))
        simp [fileCountOf, listRecursive, manifestOf, FSEntry.isFile, List.filter] at ihr ⊢
        exact ihr
      | dir n c =>
        have := hall (.dir n c) (List.mem_cons_self _ _)
        simp [FSEntry.isFile] at this

/-- Witness for claim C4 on a flat two-file directory. -/
theorem claim_C4_flat_manifest_witness :
    (∀ e ∈ [FSEntry.file "a.txt", FSEntry.file "b.txt"], e.isFile = true) ∧
    fileCountOf [FSEntry.file "a.txt", FSEntry.file "b.txt"]
      = (manifestOf "./dist" [FSEntry.file "a.txt", FSEntry.file "b.txt"]).length :=
  ⟨by decide, (claim_C4_flat_manifest "./dist" [FSEntry.file "a.txt", FSEntry.file "b.txt"]).2.2
    (by decide)⟩

/-- The source tree refuting the count claim: one top-level file and one
subdirectory holding another file. -/
def nestedTree : List FSEntry := [.file "a.txt", .dir "sub" (.file "b.txt" .nil)]


@[simp] theorem DM.bind_apply {α β : Type} (x : DM α) (f : α → DM β) (t : List Event) :
    DM.bind x f t = match x t with
      | (.ok a, t1) => f a t1
      | (.error e, t1) => (.error e, t1) := rfl

@[simp] theorem emit_apply (e : Event) (t : List Event) : emit e t = (.ok (), t ++ [e]) := rfl

@[simp] theorem DM.pure_apply {α : Type} (a : α) (t : List Event) :
    DM.pure a t = (.ok a, t) := rfl

@[simp] theorem throwE_apply {α : Type} (e : DeployErr) (t : List Event) :
    throwE (α := α) e t = (.error e, t) := rfl

@[simp] theorem tryCatchE_apply {α : Type} (x : DM α) (h : DeployErr → DM α) (t : List Event) :
    tryCatchE x h t = match x t with
      | (.ok a, t1) => (.ok a, t1)
      | (.error e, t1) => h e t1 := rfl

@[simp] theorem ensureAfter_apply {α : Type} (x : DM α) (fin : DM Unit) (t : List Event) :
    ensureAfter x fin t = match x t with
      | (.ok a, t1) =>
        (match fin t1 with
         | (.ok _, t2) => (.ok a, t2)
         | (.error e2, t2) => (.error e2, t2))
      | (.error e, t1) =>
        (match fin t1 with
         | (.ok _, t2) => (.error e, t2)
         | (.error e2, t2) => (.error e2, t2)) := rfl

/-- A successful subprocess with empty streams. -/
def okRes : ExecResult := ⟨0, "", ""⟩

/-- A canonical ssh-agent startup output in the expected token format. -/
def agentOutS : String :=
  "SSH_AUTH_SOCK=/tmp/agent.1234; export SSH_AUTH_SOCK;\nSSH_AGENT_PID=1234; export SSH_AGENT_PID;\n"

/-- The canonical environment of a fully successful run: ssh tools
present, agent starts with parseable output, every subprocess exits
zero, two regular files in the source directory, a key lacking its
trailing newline. -/
def happyEnv : Env :=
  { host := "test-host", username := "test-user", port := "22",
    sourceDir := "./dist", remoteDir := "/var/www/html",
    privateKey := "KEY", platform := "linux",
    whichSshAdd := okRes, whichSshAddVerify := okRes,
    aptGetUpdate := okRes, aptGetInstall := okRes,
    sshAgentStart := ⟨0, agentOutS, ""⟩, sshAdd := okRes,
    sftp := okRes, sshAgentKill := okRes,
    tmpdir := "/tmp", runnerTemp := "/tmp", nowISO := "2025-01-01T00:00:00.000Z",
    sourceTree := some [.file "a.txt", .file "b.txt"],
    unlinkIdentityOk := true, unlinkBatchOk := true }

/-- The canonical toolchain environment with the configuration strings,
the private key and the sftp result left free: every run of deploy on it
follows the straight-line path up to the transfer, whose outcome the
sftp result decides. -/
def pinnedEnv (h u p sd rd pk : String) (sftpRes : ExecResult) : Env :=
  { happyEnv with
    host := h
    username := u
    port := p
    sourceDir := sd
    remoteDir := rd
    privateKey := pk
    sftp := sftpRes }

/-- The canonical run in which only the transfer fails. -/
def sftpFailEnv : Env := { happyEnv with sftp := ⟨1, "", "Connection refused"⟩ }

/-- The canonical run in which the source directory does not exist. -/
def noSrcEnv : Env := { happyEnv with sourceTree := none }

/-- Number of events of the trace satisfying a predicate. -/
def countEvents (p : Event → Bool) (tr : List Event) : Nat := (tr.filter p).length

/-- Whether the event is a subprocess spawn. -/
def Event.isSpawn : Event → Bool
  | .spawn _ _ _ => true
  | _ => false

/-- Whether the event is a file write. -/
def Event.isFsWrite : Event → Bool
  | .fsWrite _ _ _ => true
  | _ => false

/-- Whether the event is a directory read. -/
def Event.isFsRead : Event → Bool
  | .fsRead _ => true
  | _ => false

/-- Whether the event sets an action output. -/
def Event.isSetOutput : Event → Bool
  | .setOutput _ _ => true
  | _ => false

/-- The dynamic strings spliced into a logged line (empty for
non-logging events). -/
def Event.splices : Event → List String
  | .log _ sp => sp
  | .warnLog _ sp => sp
  | .errorLog _ sp => sp
  | _ => []

/-- Whether an event hands the given secret to the outside world: a
subprocess receiving it on standard input, or a file written with it as
content. -/
def carriesKey (nk : String) : Event → Bool
  | .spawn _ _ (some s) => s == nk
  | .fsWrite _ c _ => c == nk
  | _ => false

/-- Scan of a trace: before the secret marker for the key is set, no
event may hand the key to the outside world; from the marker on the
trace is unconstrained. -/
def keyGuarded (nk : String) : List Event → Bool
  | [] => true
  | .setSecret v :: rest =>
    if v == nk then true else keyGuarded nk rest
  | e :: rest => !carriesKey nk e && keyGuarded nk rest

/-- The secret values registered along a trace, in order. -/
def secretsOf (tr : List Event) : List String :=
  tr.filterMap (fun e => match e with | .setSecret v => some v | _ => none)

/-- The (content, mode) pairs written to the given path along a trace. -/
def writesTo (p : String) (tr : List Event) : List (String × Option Nat) :=
  tr.filterMap (fun e => match e with
    | .fsWrite q c m => if q == p then some (c, m) else none
    | _ => none)

/-- The standard-input buffers handed to spawns of the given command. -/
def stdinsOf (cmd : String) (tr : List Event) : List (Option String) :=
  tr.filterMap (fun e => match e with
    | .spawn c _ i => if c == cmd then some i else none
    | _ => none)

/-- The commands of all spawns whose command string starts with the
four characters sftp. -/
def sftpSpawnsOf (tr : List Event) : List String :=
  tr.filterMap (fun e => match e with
    | .spawn c _ _ => if listHasInfix "sftp".data (c.data.take 4) then some c else none
    | _ => none)

/-- Every dynamic string deploy or deployWithDependencies can splice
into a logged line, as a function of the environment: the configuration
fields, the rendered key length, the parsed agent tokens, the file
count, the temp paths and generated artifacts, the sftp streams and
exit code, and the possible error messages. -/
def loggedStrings (env : Env) : List String :=
  [env.host, env.username, env.port, env.sourceDir, env.remoteDir,
   toString (normalizeKey env.privateKey).length, toString env.privateKey.length,
   (matchEnvAssign "SSH_AUTH_SOCK" env.sshAgentStart.stdout).getD "",
   (matchEnvAssign "SSH_AGENT_PID" env.sshAgentStart.stdout).getD "",
   toString (fileCountOf (env.sourceTree.getD [])),
   batchFilePath env, batchContentOf env, identityFilePath env, sftpCommand env,
   env.sftp.stdout, env.sftp.stderr, toString env.sftp.exitCode,
   DeployErr.message (.execFailure "sudo" env.aptGetUpdate.exitCode),
   DeployErr.message (.execFailure "sudo" env.aptGetInstall.exitCode),
   DeployErr.message (.execFailure "ssh-agent" env.sshAgentStart.exitCode),
   DeployErr.message (.execFailure "ssh-add" env.sshAdd.exitCode),
   DeployErr.message (.execFailure (sftpCommand env) env.sftp.exitCode),
   DeployErr.message (.execFailure "ssh-agent" env.sshAgentKill.exitCode),
   "Failed to install or locate ssh-add after installation attempt",
   "Private key is required", "Failed to get ssh-agent output",
   "Failed to parse ssh-agent output",
   "ENOENT: no such file or directory, scandir " ++ env.sourceDir,
   "ENOENT: no such file or directory, unlink " ++ identityFilePath env,
   "ENOENT: no such file or directory, unlink " ++ batchFilePath env]

/-- Inversion of a successful bind: the first computation succeeded and
the continuation took its result to the final one. -/
theorem DM.bind_ok {α β : Type} {x : DM α} {f : α → DM β} {t tr : List Event} {b : β}
    (h : DM.bind x f t = (.ok b, tr)) :
    ∃ a t1, x t = (.ok a, t1) ∧ f a t1 = (.ok b, tr) := by
  unfold DM.bind at h
  rcases hx : x t with ⟨r, t1⟩
  rw [hx] at h
  cases r with
  | ok a => exact ⟨a, t1, rfl, h⟩
  | error e => simp at h

theorem tryCatchE_ok {α : Type} {x : DM α} {hnd : DeployErr → DM α} {t tr : List Event} {b : α}
    (hh : ∀ e t2, (hnd e t2).1 = Except.error e)
    (h : tryCatchE x hnd t = (.ok b, tr)) : x t = (.ok b, tr) := by
  unfold tryCatchE at h
  rcases hx : x t with ⟨r, t1⟩
  rw [hx] at h
  cases r with
  | ok a =>
    have h2 : ((Except.ok a : Except DeployErr α), t1) = (.ok b, tr) := h
    exact h2
  | error e =>
    have h2 : hnd e t1 = (.ok b, tr) := h
    have h3 := hh e t1
    rw [h2] at h3
    simp at h3

theorem getExecOutput_ok {cmd : String} {args : List String} {stdin : Option String}
    {res : ExecResult} {t tr : List Event} {r : ExecResult}
    (h : getExecOutput cmd args stdin false res t = (.ok r, tr)) : res.exitCode = 0 := by
  unfold getExecOutput at h
  simp only [DM.bind_eq] at h
  obtain ⟨_, t1, -, h⟩ := DM.bind_ok h
  by_cases hc : res.exitCode = 0
  · exact hc
  · have hb : (res.exitCode != 0 && !false) = true := by simp [hc]
    rw [hb] at h
    simp at h

theorem cleanupIdentity_fst (env : Env) (t : List Event) :
    (cleanupIdentity env t).1 = Except.ok () := by
  cases hok : env.unlinkIdentityOk <;>
    simp [cleanupIdentity, unlinkFile, hok]

theorem sftpTransfer_ok_exit_zero (env : Env) (t tr : List Event)
    (h : sftpTransfer env t = (.ok (), tr)) : env.sftp.exitCode = 0 := by
  unfold sftpTransfer at h
  simp only [DM.bind_eq, DM.pure_eq] at h
  replace h := tryCatchE_ok ?_ h
  · obtain ⟨_, _, hG, -⟩ := DM.bind_ok h
    exact getExecOutput_ok hG
  · intro e t2
    simp only [DM.bind_eq, DM.bind_apply, emit_apply]
    rcases hc : cleanupIdentity env
        (t2 ++ [Event.errorLog "SFTP command failed:" [DeployErr.message e]]) with ⟨r, t3⟩
    have hfst := cleanupIdentity_fst env
      (t2 ++ [Event.errorLog "SFTP command failed:" [DeployErr.message e]])
    rw [hc] at hfst
    cases r with
    | ok a => simp [throwE]
    | error e1 => simp at hfst

theorem deployCore_ok_sftp_zero (env : Env) (pk : String) (t tr : List Event) (b : Bool)
    (h : deployCore env pk t = (.ok b, tr)) : env.sftp.exitCode = 0 := by
  unfold deployCore at h
  simp only [DM.bind_eq, DM.pure_eq] at h
  obtain ⟨_, _, -, h⟩ := DM.bind_ok h
  obtain ⟨_, _, -, h⟩ := DM.bind_ok h
  obtain ⟨_, _, -, h⟩ := DM.bind_ok h
  obtain ⟨_, _, -, h⟩ := DM.bind_ok h
  obtain ⟨_, _, -, h⟩ := DM.bind_ok h
  obtain ⟨_, _, -, h⟩ := DM.bind_ok h
  obtain ⟨_, _, -, h⟩ := DM.bind_ok h
  obtain ⟨_, _, -, h⟩ := DM.bind_ok h
  obtain ⟨_, _, -, h⟩ := DM.bind_ok h
  obtain ⟨_, _, -, h⟩ := DM.bind_ok h
  obtain ⟨_, _, -, h⟩ := DM.bind_ok h
  obtain ⟨_, _, -, h⟩ := DM.bind_ok h
  obtain ⟨_, _, -, h⟩ := DM.bind_ok h
  obtain ⟨_, _, -, h⟩ := DM.bind_ok h
  obtain ⟨_, _, -, h⟩ := DM.bind_ok h
  obtain ⟨_, _, -, h⟩ := DM.bind_ok h
  obtain ⟨_, _, -, h⟩ := DM.bind_ok h
  obtain ⟨u2, _, hS, -⟩ := DM.bind_ok h
  exact sftpTransfer_ok_exit_zero env _ _ hS

theorem deploy_ok_sftp_zero (env : Env) (t tr : List Event) (b : Bool)
    (h : deploy env t = (.ok b, tr)) : env.sftp.exitCode = 0 := by
  unfold deploy at h
  simp only [DM.bind_eq, DM.pure_eq] at h
  obtain ⟨_, _, -, h⟩ := DM.bind_ok h
  replace h := tryCatchE_ok (fun e t2 => rfl) h
  obtain ⟨_, _, -, h⟩ := DM.bind_ok h
  obtain ⟨_, _, -, h⟩ := DM.bind_ok h
  by_cases hk : endsWithNewline env.privateKey = true
  · rw [if_pos hk] at h
    obtain ⟨pk, _, -, h⟩ := DM.bind_ok h
    exact deployCore_ok_sftp_zero env pk _ _ _ h
  · rw [if_neg hk] at h
    obtain ⟨_, _, -, h⟩ := DM.bind_ok h
    obtain ⟨pk, _, -, h⟩ := DM.bind_ok h
    exact deployCore_ok_sftp_zero env pk _ _ _ h

deriving instance DecidableEq for Except

/-- The batch file a canonical run of deploy actually writes is exactly
the batchFileContent of its remote directory, source directory and
listing (the byte-identical text of the claim). -/
theorem deploy_writes_batchFileContent :
    Event.fsWrite "/tmp/sftp_batch"
      (batchFileContent "/var/www/html" "./dist" [.file "a.txt", .file "b.txt"]) none
      ∈ (deploy happyEnv []).2 := by decide

/-- Counterexample to claim C4 as stated: with a subdirectory holding a
file, the reported count (recursive, getFileCount) is 2 while the
manifest (flat, the put directives) has a single entry, so the count
does not equal the number of manifest entries. -/
theorem claim_C4_counterexample :
    fileCountOf nestedTree = 2 ∧
    (manifestOf "./dist" nestedTree).length = 1 ∧
    fileCountOf nestedTree ≠ (manifestOf "./dist" nestedTree).length ∧
    Event.log "Found 2 files to transfer in source directory" ["2"]
      ∈ (deploy { happyEnv with sourceTree := some nestedTree } []).2 ∧
    writesTo "/tmp/sftp_batch" (deploy { happyEnv with sourceTree := some nestedTree } []).2
      = [("-mkdir /var/www/html\ncd /var/www/html\nput \"./dist/a.txt\" \"a.txt\"\n", none)] := by
  refine ⟨by decide, by decide, by decide, by decide, by decide⟩

/-- Claim C2: a nonzero exit status of the sftp client makes the
deployment fail: deploy cannot return a successful result, and whatever
it returns is an error handed to the caller.  The environment is
arbitrary, so this holds regardless of what the client wrote to its
standard output or standard error streams. -/
theorem claim_C2_nonzero_exit_fails (env : Env) (t : List Event)
    (hnz : env.sftp.exitCode ≠ 0) :
    (∀ b tr, deploy env t ≠ (.ok b, tr)) ∧
    (∀ r tr, deploy env t = (r, tr) → ∃ e, r = .error e) := by
  constructor
  · intro b tr h
    exact hnz (deploy_ok_sftp_zero env t tr b h)
  · intro r tr h
    cases r with
    | ok b => exact absurd (deploy_ok_sftp_zero env t tr b h) hnz
    | error e => exact ⟨e, rfl⟩

/-- Witness for claim C2 on the canonical run whose transfer exits 1. -/
theorem claim_C2_nonzero_exit_fails_witness :
    sftpFailEnv.sftp.exitCode ≠ 0 ∧
    deploy sftpFailEnv [] ≠ (.ok true, (deploy sftpFailEnv []).2) :=
  ⟨by decide,
   (claim_C2_nonzero_exit_fails sftpFailEnv [] (by decide)).1 true (deploy sftpFailEnv []).2⟩

/-- Claim C9, on the code divergence: the current deploy (part 001)
returns plain true on success and never sets any action output, even
though the action metadata and the older orchestrator in src deploy.js
declare and produce deployed-files and deployment-time; the older
orchestrator sets both on success and neither on failure. -/
theorem claim_C9_outputs_divergence :
    (deploy happyEnv []).1 = .ok true ∧
    countEvents Event.isSetOutput (deploy happyEnv []).2 = 0 ∧
    (deployV2 happyEnv []).1 = .ok () ∧
    Event.setOutput "deployed-files" "2" ∈ (deployV2 happyEnv []).2 ∧
    Event.setOutput "deployment-time" "2025-01-01T00:00:00.000Z" ∈ (deployV2 happyEnv []).2 ∧
    countEvents Event.isSetOutput (deployV2 sftpFailEnv []).2 = 0 ∧
    Event.setFailed (DeployErr.message (.execFailure "sftp" 1)) ∈ (deployV2 sftpFailEnv []).2 := by
  refine ⟨by decide, by decide, by decide, by decide, by decide, by decide, by decide⟩

/-- Counterexample to claim C1 as stated: on the canonical run whose
transfer exits 1, deploy propagates the error and deletes the identity
file, but the batch script is not deleted and the agent is never
terminated (no ssh-agent -k is spawned), so cleanup is not performed on
this failure path. -/
theorem claim_C1_counterexample :
    (deploy sftpFailEnv []).1 = .error (.execFailure (sftpCommand sftpFailEnv) 1) ∧
    Event.fsUnlink "/tmp/deploy_identity" ∈ (deploy sftpFailEnv []).2 ∧
    Event.fsUnlink "/tmp/sftp_batch" ∉ (deploy sftpFailEnv []).2 ∧
    Event.spawn "ssh-agent" ["-k"] none ∉ (deploy sftpFailEnv []).2 := by
  refine ⟨by decide, by decide, by decide, by decide⟩

/-- Counterexample to claim C6 as stated: on the canonical run whose
source directory does not exist, deploy does fail, but only at the
directory listing inside getFileCount, after the ssh tools probe, the
ssh-agent start and the key load have already spawned subprocesses and
acquired the credential. -/
theorem claim_C6_counterexample :
    (deploy noSrcEnv []).1
      = .error (.genericError "ENOENT: no such file or directory, scandir ./dist") ∧
    Event.spawn "which" ["ssh-add"] none ∈ (deploy noSrcEnv []).2 ∧
    Event.spawn "ssh-agent" ["-s"] none ∈ (deploy noSrcEnv []).2 ∧
    Event.spawn "ssh-add" ["-"] (some "KEY\n") ∈ (deploy noSrcEnv []).2 := by
  refine ⟨by decide, by decide, by decide, by decide⟩

/-- Counterexample to claim C7 as stated: one successful canonical run
activates both credential representations, loading the key into the
agent through ssh-add and writing it to the 0600 identity file. -/
theorem claim_C7_counterexample :
    (deploy happyEnv []).1 = .ok true ∧
    Event.spawn "ssh-add" ["-"] (some "KEY\n") ∈ (deploy happyEnv []).2 ∧
    Event.fsWrite "/tmp/deploy_identity" "KEY\n" (some 384) ∈ (deploy happyEnv []).2 := by
  refine ⟨by decide, by decide, by decide⟩

/-- The canonical toolchain run with the configuration free and the
transfer exiting with the nonzero status n+1. -/
def c1RunEnv (h u p sd rd : String) (n : Nat) (so se : String) : Env :=
  pinnedEnv h u p sd rd "KEY" ⟨n + 1, so, se⟩

/-- Claim C1, amended: on every canonical run (any configuration, any
streams) whose transfer exits nonzero, deploy deletes the identity file
and propagates the transfer error, but it does not delete the batch
script and never terminates the agent on that failure path; the batch
file deletion and the agent kill happen on the success path only. -/
theorem claim_C1_amended_failure_cleanup (h u p sd rd so se : String) (n : Nat) :
    (deploy (c1RunEnv h u p sd rd n so se) []).1
      = .error (.execFailure (sftpCommand (c1RunEnv h u p sd rd n so se)) (n + 1)) ∧
    countEvents (fun e => e == Event.fsUnlink "/tmp/deploy_identity")
      (deploy (c1RunEnv h u p sd rd n so se) []).2 = 1 ∧
    countEvents (fun e => e == Event.fsUnlink "/tmp/sftp_batch")
      (deploy (c1RunEnv h u p sd rd n so se) []).2 = 0 ∧
    countEvents (fun e => e == Event.spawn "ssh-agent" ["-k"] none)
      (deploy (c1RunEnv h u p sd rd n so se) []).2 = 0 ∧
    Event.fsUnlink "/tmp/deploy_identity" ∈ (deploy happyEnv []).2 ∧
    Event.fsUnlink "/tmp/sftp_batch" ∈ (deploy happyEnv []).2 ∧
    Event.spawn "ssh-agent" ["-k"] none ∈ (deploy happyEnv []).2 := by
  have hb : (((n : Nat) + 1) != 0 && !false) = true := by simp
  have hk : endsWithNewline "KEY" = false := by decide
  have hao : ¬((agentOutS : String) = "") := by decide
  have hs1 : matchEnvAssign "SSH_AUTH_SOCK" agentOutS = some "/tmp/agent.1234" := by decide
  have hs2 : matchEnvAssign "SSH_AGENT_PID" agentOutS = some "1234" := by decide
  have hf : fileCountOf [FSEntry.file "a.txt", FSEntry.file "b.txt"] = 2 := by decide
  refine ⟨?_, ?_, ?_, ?_, by decide, by decide, by decide⟩ <;>
    simp [deploy, deployCore, sftpTransfer, c1RunEnv, pinnedEnv, happyEnv, okRes,
      checkAndInstallSshTools, startSshAgent, getFileCount, readdirTop, cleanupIdentity,
      unlinkFile, getExecOutput, execCmd, identityFilePath, batchFilePath, pathJoin,
      sftpCommand, hb, hk, hao, hs1, hs2, hf, countEvents]

/-- The older orchestrator with a missing source directory and the
configuration free. -/
def v2NoSrcEnv (h u p sd rd pk : String) : Env :=
  { happyEnv with
    host := h
    username := u
    port := p
    sourceDir := sd
    remoteDir := rd
    privateKey := pk
    sourceTree := none }

/-- Claim C6, amended for the orchestrator of src deploy.js lines
379-497, which is where the up-front check exists: with a missing
source directory it marks the action failed with the source-not-found
message after the single existence check, and its trace holds no
subprocess spawn, no file write, and no directory read: no credential
is acquired and no side effect happens.  (The current deploy of part
001 has no such check: see the counterexample.) -/
theorem claim_C6_amended_fail_fast (h u p sd rd pk : String) :
    (deployV2 (v2NoSrcEnv h u p sd rd pk) []).1 = .ok () ∧
    Event.setFailed ("Source directory " ++ sd ++ " does not exist")
      ∈ (deployV2 (v2NoSrcEnv h u p sd rd pk) []).2 ∧
    countEvents Event.isSpawn (deployV2 (v2NoSrcEnv h u p sd rd pk) []).2 = 0 ∧
    countEvents Event.isFsWrite (deployV2 (v2NoSrcEnv h u p sd rd pk) []).2 = 0 ∧
    countEvents Event.isFsRead (deployV2 (v2NoSrcEnv h u p sd rd pk) []).2 = 0 := by
  refine ⟨?_, ?_, ?_, ?_, ?_⟩ <;>
    simp [deployV2, v2Attempt, v2Prelude, v2Catch, v2KillAgent, v2NoSrcEnv, happyEnv,
      getFileCount, countEvents, Event.isSpawn, Event.isFsWrite, Event.isFsRead,
      DeployErr.message]

set_option maxHeartbeats 1600000 in
/-- Claim C7, amended: on every canonical successful run, both
credential representations are established — the agent session (one
agent start and exactly one ssh-add receiving the key on stdin) and the
0600 temporary identity file holding the same key — and the transfer
invocation is the sftp command that passes the identity file with the
-i flag. -/
theorem claim_C7_amended_both_credentials (h u p sd rd pk so se : String)
    (hk : endsWithNewline pk = true) (hpk : pk ≠ "") :
    countEvents (fun e => e == Event.spawn "ssh-agent" ["-s"] none)
      (deploy (pinnedEnv h u p sd rd pk ⟨0, so, se⟩) []).2 = 1 ∧
    countEvents (fun e => e == Event.spawn "ssh-add" ["-"] (some pk))
      (deploy (pinnedEnv h u p sd rd pk ⟨0, so, se⟩) []).2 = 1 ∧
    countEvents (fun e => e == Event.fsWrite "/tmp/deploy_identity" pk (some 384))
      (deploy (pinnedEnv h u p sd rd pk ⟨0, so, se⟩) []).2 = 1 ∧
    countEvents (fun e => e == Event.spawn (sftpCommand (pinnedEnv h u p sd rd pk ⟨0, so, se⟩)) [] none)
      (deploy (pinnedEnv h u p sd rd pk ⟨0, so, se⟩) []).2 = 1 ∧
    hasSubstr "-i /tmp/deploy_identity" (sftpCommand happyEnv) = true := by
  have hao : ¬((agentOutS : String) = "") := by decide
  have hs1 : matchEnvAssign "SSH_AUTH_SOCK" agentOutS = some "/tmp/agent.1234" := by decide
  have hs2 : matchEnvAssign "SSH_AGENT_PID" agentOutS = some "1234" := by decide
  have hf : fileCountOf [FSEntry.file "a.txt", FSEntry.file "b.txt"] = 2 := by decide
  refine ⟨?_, ?_, ?_, ?_, by decide⟩ <;>
    rcases eq_or_ne se "" with hse | hse <;>
      simp [deploy, deployCore, sftpTransfer, pinnedEnv, happyEnv, okRes,
        checkAndInstallSshTools, startSshAgent, getFileCount, readdirTop, cleanupIdentity,
        unlinkFile, getExecOutput, execCmd, identityFilePath, batchFilePath, pathJoin,
        sftpCommand, hk, hpk, hao, hs1, hs2, hf, hse, countEvents]

/-- Witness for the amended claim C7 at a concrete key carrying its
trailing newline. -/
theorem claim_C7_amended_both_credentials_witness :
    endsWithNewline "KEY\n" = true ∧ ("KEY\n" : String) ≠ "" ∧
    countEvents (fun e => e == Event.spawn "ssh-add" ["-"] (some "KEY\n"))
      (deploy (pinnedEnv "test-host" "test-user" "22" "./dist" "/var/www/html" "KEY\n"
        ⟨0, "", ""⟩) []).2 = 1 :=
  ⟨by decide, by decide,
   (claim_C7_amended_both_credentials "test-host" "test-user" "22" "./dist" "/var/www/html"
     "KEY\n" "" "" (by decide) (by decide)).2.1⟩

/-- A string extended by a newline is never empty. -/
theorem append_newline_ne_empty (k : String) : ¬((k ++ "\n" : String) = "") := by
  intro hh
  have h2 : k.data ++ ['\n'] = ([] : List Char) := congrArg String.data hh
  simp at h2

set_option maxHeartbeats 2000000 in
/-- Claim C8: on every canonical run (any configuration, any key, any
transfer streams), the normalized key is registered as a secret before
any event that hands it to the outside world (a subprocess stdin or a
file write), witnessed by the keyGuarded trace scan; every string ever
spliced into a logged line is drawn from the loggedStrings catalogue of
configuration-derived values, which does not include the key itself;
hence whenever the key value coincides with none of the catalogue
entries, no log, warning or error line carries the plaintext key. -/
theorem claim_C8_secret_before_use (h u p sd rd pk so se : String) (hpk : pk ≠ "") :
    keyGuarded (normalizeKey pk) (deploy (pinnedEnv h u p sd rd pk ⟨0, so, se⟩) []).2 = true ∧
    (∀ e ∈ (deploy (pinnedEnv h u p sd rd pk ⟨0, so, se⟩) []).2,
      ∀ s ∈ e.splices, s ∈ loggedStrings (pinnedEnv h u p sd rd pk ⟨0, so, se⟩)) ∧
    (normalizeKey pk ∉ loggedStrings (pinnedEnv h u p sd rd pk ⟨0, so, se⟩) →
      ∀ e ∈ (deploy (pinnedEnv h u p sd rd pk ⟨0, so, se⟩) []).2,
        normalizeKey pk ∉ e.splices) := by
  have hao : ¬((agentOutS : String) = "") := by decide
  have hs1 : matchEnvAssign "SSH_AUTH_SOCK" agentOutS = some "/tmp/agent.1234" := by decide
  have hs2 : matchEnvAssign "SSH_AGENT_PID" agentOutS = some "1234" := by decide
  have hf : fileCountOf [FSEntry.file "a.txt", FSEntry.file "b.txt"] = 2 := by decide
  have hcat : ∀ e ∈ (deploy (pinnedEnv h u p sd rd pk ⟨0, so, se⟩) []).2,
      ∀ s ∈ e.splices, s ∈ loggedStrings (pinnedEnv h u p sd rd pk ⟨0, so, se⟩) := by
    by_cases hk : endsWithNewline pk = true <;>
      rcases eq_or_ne se "" with hse | hse <;>
        simp [deploy, deployCore, sftpTransfer, pinnedEnv, happyEnv, okRes,
          checkAndInstallSshTools, startSshAgent, getFileCount, readdirTop, cleanupIdentity,
          unlinkFile, getExecOutput, execCmd, normalizeKey, loggedStrings, batchContentOf,
          Event.splices, hk, hpk, hao, hs1, hs2, hf, hse, append_newline_ne_empty]
  refine ⟨?_, hcat, fun hnk e he hmem => hnk (hcat e he _ hmem)⟩
  by_cases hk : endsWithNewline pk = true <;>
    rcases eq_or_ne se "" with hse | hse <;>
      simp [deploy, deployCore, sftpTransfer, pinnedEnv, happyEnv, okRes,
        checkAndInstallSshTools, startSshAgent, getFileCount, readdirTop, cleanupIdentity,
        unlinkFile, getExecOutput, execCmd, normalizeKey, keyGuarded, carriesKey,
        hk, hpk, hao, hs1, hs2, hf, hse, append_newline_ne_empty]

/-- Witness for claim C8 at a concrete key and configuration, also
discharging the key-not-among-logged-strings hypothesis there. -/
theorem claim_C8_secret_before_use_witness :
    ("KEY" : String) ≠ "" ∧
    normalizeKey "KEY" ∉ loggedStrings
      (pinnedEnv "test-host" "test-user" "22" "./dist" "/var/www/html" "KEY" ⟨0, "", ""⟩) ∧
    keyGuarded (normalizeKey "KEY")
      (deploy (pinnedEnv "test-host" "test-user" "22" "./dist" "/var/www/html" "KEY"
        ⟨0, "", ""⟩) []).2 = true ∧
    normalizeKey "KEY" ∉ (Event.log "Starting deployment process..." []).splices :=
  ⟨by decide, by decide,
   (claim_C8_secret_before_use "test-host" "test-user" "22" "./dist" "/var/www/html" "KEY"
     "" "" (by decide)).1,
   (claim_C8_secret_before_use "test-host" "test-user" "22" "./dist" "/var/www/html" "KEY"
     "" "" (by decide)).2.2 (by decide) (Event.log "Starting deployment process..." [])
     (by decide)⟩

/-- All subprocess invocations of a trace: command, arguments, and
standard input buffer, in order. -/
def spawnsOf (tr : List Event) : List (String × List String × Option String) :=
  tr.filterMap (fun e => match e with | .spawn c a i => some (c, a, i) | _ => none)

/-- All standard-input buffers handed to subprocesses along a trace. -/
def spawnStdins (tr : List Event) : List String :=
  tr.filterMap (fun e => match e with | .spawn _ _ (some s) => some s | _ => none)

set_option maxHeartbeats 2000000 in
/-- Claim C10: on the canonical successful run, deploy and
deployWithDependencies implement the same pipeline except for key
normalization.  For every key already ending in a newline the two runs
register the same secret, perform the same subprocess invocations
(command, arguments and stdin), and write the same identity file and
batch file; for every key, deployWithDependencies hands exactly the raw
key to the secret marker, to the agent via the ssh-add stdin, and to
the identity file, while deploy hands the normalized key (the raw key
with the newline appended when missing) to each of the three. -/
theorem claim_C10_injected_variant_refinement (h u p sd rd pk : String) (hpk : pk ≠ "") :
    (endsWithNewline pk = true →
      secretsOf (deployWithDependencies (pinnedEnv h u p sd rd pk okRes) []).2
          = secretsOf (deploy (pinnedEnv h u p sd rd pk okRes) []).2 ∧
      spawnsOf (deployWithDependencies (pinnedEnv h u p sd rd pk okRes) []).2
          = spawnsOf (deploy (pinnedEnv h u p sd rd pk okRes) []).2 ∧
      writesTo "/tmp/deploy_identity" (deployWithDependencies (pinnedEnv h u p sd rd pk okRes) []).2
          = writesTo "/tmp/deploy_identity" (deploy (pinnedEnv h u p sd rd pk okRes) []).2 ∧
      writesTo "/tmp/sftp_batch" (deployWithDependencies (pinnedEnv h u p sd rd pk okRes) []).2
          = writesTo "/tmp/sftp_batch" (deploy (pinnedEnv h u p sd rd pk okRes) []).2) ∧
    (secretsOf (deployWithDependencies (pinnedEnv h u p sd rd pk okRes) []).2,
     spawnStdins (deployWithDependencies (pinnedEnv h u p sd rd pk okRes) []).2,
     writesTo "/tmp/deploy_identity" (deployWithDependencies (pinnedEnv h u p sd rd pk okRes) []).2)
      = ([pk], [pk], [(pk, some 384)]) ∧
    (secretsOf (deploy (pinnedEnv h u p sd rd pk okRes) []).2,
     spawnStdins (deploy (pinnedEnv h u p sd rd pk okRes) []).2,
     writesTo "/tmp/deploy_identity" (deploy (pinnedEnv h u p sd rd pk okRes) []).2)
      = ([normalizeKey pk], [normalizeKey pk], [(normalizeKey pk, some 384)]) := by
  have hao : ¬((agentOutS : String) = "") := by decide
  have hs1 : matchEnvAssign "SSH_AUTH_SOCK" agentOutS = some "/tmp/agent.1234" := by decide
  have hs2 : matchEnvAssign "SSH_AGENT_PID" agentOutS = some "1234" := by decide
  have hf : fileCountOf [FSEntry.file "a.txt", FSEntry.file "b.txt"] = 2 := by decide
  refine ⟨fun hk => ?_, ?_, ?_⟩
  · simp [deploy, deployCore, sftpTransfer, deployWithDependencies, checkToolsWithDeps,
      startSshAgentWithDeps, checkAndInstallSshTools, startSshAgent, pinnedEnv, happyEnv,
      okRes, getFileCount, readdirTop, cleanupIdentity, unlinkFile, getExecOutput, execCmd,
      normalizeKey, secretsOf, spawnsOf, writesTo, identityFilePath,
      batchFilePath, pathJoin, hpk, hao, hs1, hs2, hf, hk, append_newline_ne_empty]
  · simp [deployWithDependencies, checkToolsWithDeps, startSshAgentWithDeps, pinnedEnv,
      happyEnv, okRes, getFileCount, readdirTop, cleanupIdentity, unlinkFile, getExecOutput,
      execCmd, secretsOf, spawnStdins, writesTo, identityFilePath, batchFilePath, pathJoin,
      hpk, hao, hs1, hs2, hf]
  · by_cases hk : endsWithNewline pk = true <;>
      simp [deploy, deployCore, sftpTransfer, checkAndInstallSshTools, startSshAgent,
        pinnedEnv, happyEnv, okRes, getFileCount, readdirTop, cleanupIdentity, unlinkFile,
        getExecOutput, execCmd, normalizeKey, secretsOf, spawnStdins, writesTo,
        identityFilePath, batchFilePath, pathJoin, hpk, hao, hs1, hs2, hf, hk,
        append_newline_ne_empty]

/-- Witness for claim C10 at concrete keys, with and without the
trailing newline, also discharging the trailing-newline hypothesis of
the equal-pipeline part. -/
theorem claim_C10_injected_variant_refinement_witness :
    ("KEY" : String) ≠ "" ∧
    (secretsOf (deployWithDependencies
        (pinnedEnv "test-host" "test-user" "22" "./dist" "/var/www/html" "KEY" okRes) []).2,
     spawnStdins (deployWithDependencies
        (pinnedEnv "test-host" "test-user" "22" "./dist" "/var/www/html" "KEY" okRes) []).2,
     writesTo "/tmp/deploy_identity" (deployWithDependencies
        (pinnedEnv "test-host" "test-user" "22" "./dist" "/var/www/html" "KEY" okRes) []).2)
      = (["KEY"], ["KEY"], [("KEY", some 384)]) ∧
    ("KEY\n" : String) ≠ "" ∧ endsWithNewline "KEY\n" = true ∧
    secretsOf (deployWithDependencies
        (pinnedEnv "test-host" "test-user" "22" "./dist" "/var/www/html" "KEY\n" okRes) []).2
      = secretsOf (deploy
        (pinnedEnv "test-host" "test-user" "22" "./dist" "/var/www/html" "KEY\n" okRes) []).2 :=
  ⟨by decide,
   (claim_C10_injected_variant_refinement "test-host" "test-user" "22" "./dist" "/var/www/html"
     "KEY" (by decide)).2.1,
   by decide, by decide,
   ((claim_C10_injected_variant_refinement "test-host" "test-user" "22" "./dist" "/var/www/html"
     "KEY\n" (by decide)).1 (by decide)).1⟩
